import Mathlib

/-!
Verification of `reverb/cc/platform/default/status_macros.h`.

The header defines three macros over the external absl status library:

  - `REVERB_RETURN_IF_ERROR(...)` (lines 83-87): evaluates the argument into a
    local `::absl::Status _status` and, when `!_status.ok()`, returns `_status`
    from the enclosing function; the whole expansion is a `do { ... } while (0)`
    statement.
  - `REVERB_ASSIGN_OR_RETURN_IMPL(statusor, lhs, rexpr)` (lines 137-142):
    evaluates `rexpr` into `statusor`; when `!statusor.ok()` returns
    `statusor.status()`; otherwise executes `lhs = std::move(statusor.ValueOrDie())`.
  - `REVERB_CHECK_OK(val)` (line 145): `CHECK_EQ(::absl::OkStatus(), (val))`.

The macros are modelled as functions from an effectful fallible expression
(`expr : s -> Status x s`, threading an explicit evaluation state so that
"evaluated exactly once" is expressible) to an outcome for the enclosing
function, the post state, and a trace of the observable operations the macro
body performs (expression evaluation, `status()` access, `ValueOrDie()`
access, assignment to the destination, StatusBuilder construction, log
emission).  The branch-prediction wrappers `REVERB_PREDICT_FALSE` /
`REVERB_PREDICT_TRUE` (lines 31-37) are modelled in both of their
preprocessor expansions over C integers.
-/

/-- Error classification of a failing `absl::Status` (external result library;
a representative subset of the canonical codes). -/
inductive ErrorCode where
  | cancelled
  | unknown
  | invalidArgument
  | notFound
  | internalError
  deriving DecidableEq, Repr

/-- Model of `absl::Status` (external): either the distinguished ok value
produced by `absl::OkStatus()`, or an error with a classification and a
message.  The absl constructor discards the message when the code is ok, so an
ok status carrying a message is unrepresentable, matching absl semantics. -/
inductive Status where
  | okStatus : Status
  | error (code : ErrorCode) (message : String) : Status
  deriving DecidableEq, Repr

/-- Model of `absl::Status::ok()`. -/
def Status.ok : Status → Bool
  | .okStatus => true
  | .error _ _ => false

/-- Model of `absl::StatusOr<T>` (external): a success payload or a failure
status.  absl guarantees that a `StatusOr` never holds an ok status without a
value, so discrimination by constructor coincides with `status().ok()`. -/
inductive StatusOr (T : Type) where
  | okValue (v : T) : StatusOr T
  | errorStatus (s : Status) : StatusOr T
  deriving DecidableEq, Repr

/-- Model of `absl::StatusOr<T>::ok()`. -/
def StatusOr.ok {T : Type} : StatusOr T → Bool
  | .okValue _ => true
  | .errorStatus _ => false

/-- Model of `absl::StatusOr<T>::status()`. -/
def StatusOr.status {T : Type} : StatusOr T → Status
  | .okValue _ => Status.okStatus
  | .errorStatus s => s

/-- Model of `StatusOr<T>::ValueOrDie()`: defined on success; on failure the
real accessor aborts the process, modelled by `none`. -/
def StatusOr.ValueOrDie {T : Type} : StatusOr T → Option T
  | .okValue v => some v
  | .errorStatus _ => none

/-- C truth test: an `int` used as a condition is true when nonzero. -/
def cBool (x : Int) : Bool := x != 0

/-- C conversion of a boolean condition to `int`. -/
def cInt (b : Bool) : Int := if b then 1 else 0

/-- C double negation `!!(x)`: normalizes an `int` to 0 or 1. -/
def cNotNot (x : Int) : Int := cInt (cBool x)

/-- GCC `__builtin_expect(exp, c)`: semantically the identity on `exp`; the
second argument is only an optimization hint. -/
def builtinExpect (exp _c : Int) : Int := exp

/-- Expansion of `REVERB_PREDICT_FALSE(x)` when `__builtin_expect` is
available (line 32): `(__builtin_expect(x, 0))`. -/
def REVERB_PREDICT_FALSE_builtin (x : Int) : Int := builtinExpect x 0

/-- Expansion of `REVERB_PREDICT_TRUE(x)` when `__builtin_expect` is
available (line 33): `(__builtin_expect(!!(x), 1))`. -/
def REVERB_PREDICT_TRUE_builtin (x : Int) : Int := builtinExpect (cNotNot x) 1

/-- Fallback expansion of `REVERB_PREDICT_FALSE(x)` (line 35): `(x)`. -/
def REVERB_PREDICT_FALSE_fallback (x : Int) : Int := x

/-- Fallback expansion of `REVERB_PREDICT_TRUE(x)` (line 36): `(x)`. -/
def REVERB_PREDICT_TRUE_fallback (x : Int) : Int := x

/-- Observable operations a macro expansion performs, in order. -/
inductive Event where
  | evalExpr
  | statusAccess
  | valueAccess
  | assignDest
  | mkBuilder
  | logEmit
  deriving DecidableEq, Repr

/-- Outcome of a statement-shaped macro for the enclosing function. -/
inductive StmtOutcome where
  | returned (s : Status)
  | fellThrough
  deriving DecidableEq, Repr

/-- Body of `REVERB_RETURN_IF_ERROR` (lines 83-87), parameterized by the
chosen expansion of `REVERB_PREDICT_FALSE`:
`::absl::Status _status = (__VA_ARGS__);
 if (REVERB_PREDICT_FALSE(!_status.ok())) return _status;`. -/
def REVERB_RETURN_IF_ERROR_expansion {σ : Type} (predictFalse : Int → Int)
    (expr : σ → Status × σ) (s0 : σ) : StmtOutcome × σ × List Event :=
  let _status : Status := (expr s0).1
  if cBool (predictFalse (cInt (!_status.ok))) then
    (StmtOutcome.returned _status, (expr s0).2, [Event.evalExpr])
  else
    (StmtOutcome.fellThrough, (expr s0).2, [Event.evalExpr])

/-- The macro `REVERB_RETURN_IF_ERROR` as compiled (builtin expansion of the
hint; by the no-semantics lemmas the fallback expansion behaves identically). -/
def REVERB_RETURN_IF_ERROR {σ : Type} (expr : σ → Status × σ) (s0 : σ) :
    StmtOutcome × σ × List Event :=
  REVERB_RETURN_IF_ERROR_expansion REVERB_PREDICT_FALSE_builtin expr s0

/-- Outcome of `REVERB_ASSIGN_OR_RETURN_IMPL` for the enclosing function:
either the function returns a status, or the destination now holds the
extracted payload and execution continues, or `ValueOrDie()` aborted. -/
inductive AssignOutcome (T : Type) where
  | returned (s : Status)
  | continued (v : T)
  | died
  deriving DecidableEq, Repr

/-- Body of `REVERB_ASSIGN_OR_RETURN_IMPL(statusor, lhs, rexpr)` (lines
137-142), parameterized by the chosen expansion of `REVERB_PREDICT_FALSE`:
`auto statusor = (rexpr);
 if (REVERB_PREDICT_FALSE(!statusor.ok())) { return statusor.status(); }
 lhs = std::move(statusor.ValueOrDie())`. -/
def REVERB_ASSIGN_OR_RETURN_IMPL_expansion {σ T : Type} (predictFalse : Int → Int)
    (rexpr : σ → StatusOr T × σ) (s0 : σ) : AssignOutcome T × σ × List Event :=
  let statusor : StatusOr T := (rexpr s0).1
  if cBool (predictFalse (cInt (!statusor.ok))) then
    (AssignOutcome.returned statusor.status, (rexpr s0).2,
      [Event.evalExpr, Event.statusAccess])
  else
    match statusor.ValueOrDie with
    | some v =>
        (AssignOutcome.continued v, (rexpr s0).2,
          [Event.evalExpr, Event.valueAccess, Event.assignDest])
    | none =>
        (AssignOutcome.died, (rexpr s0).2, [Event.evalExpr, Event.valueAccess])

/-- The macro `REVERB_ASSIGN_OR_RETURN_IMPL` as compiled (builtin expansion
of the hint). -/
def REVERB_ASSIGN_OR_RETURN_IMPL {σ T : Type} (rexpr : σ → StatusOr T × σ)
    (s0 : σ) : AssignOutcome T × σ × List Event :=
  REVERB_ASSIGN_OR_RETURN_IMPL_expansion REVERB_PREDICT_FALSE_builtin rexpr s0

/-- Value held by the destination after the macro, given its sentinel value
`d0` before the macro: only the `continued` outcome writes it. -/
def destAfter {T : Type} (d0 : T) : AssignOutcome T → T
  | AssignOutcome.continued v => v
  | AssignOutcome.returned _ => d0
  | AssignOutcome.died => d0

/-- Enclosing function of spec testable property 8:
`REVERB_ASSIGN_OR_RETURN(v, rexpr); return v + 1;` with return type
`StatusOr`; `none` is the unreachable `ValueOrDie` abort. -/
def extractThenAddOne (rexpr : StatusOr Nat) : Option (StatusOr Nat) :=
  match (REVERB_ASSIGN_OR_RETURN_IMPL (fun (u : Unit) => (rexpr, u)) ()).1 with
  | AssignOutcome.returned s => some (StatusOr.errorStatus s)
  | AssignOutcome.continued v => some (StatusOr.okValue (v + 1))
  | AssignOutcome.died => none

/-- Modelled from the spec: `internal::StatusBuilder`, referenced by the
header doc comments (lines 49-72 and 121-135) but not present under src/.
Per spec section 4.1 it wraps one non-ok Status, supports chained
augmentation, and converts back to the plain Status when consumed. -/
structure StatusBuilder where
  wrapped : Status
  deriving DecidableEq, Repr

/-- Modelled from the spec: the implicit conversion of a builder back to the
plain failure descriptor at the point of consumption. -/
def StatusBuilder.toStatus (b : StatusBuilder) : Status := b.wrapped

/-- Modelled from the spec: chained message augmentation (`operator<<`);
spec testable property 7 fixes the joining convention, appending the context
after a "; " separator. -/
def StatusBuilder.appendContext (b : StatusBuilder) (ctx : String) : StatusBuilder :=
  match b.wrapped with
  | Status.okStatus => b
  | Status.error c m => StatusBuilder.mk (Status.error c (m ++ "; " ++ ctx))

/-- Modelled from the spec: the behavior the header doc comment (lines 49-57)
ascribes to `REVERB_RETURN_IF_ERROR` — on failure the macro "ends with an
`internal::StatusBuilder`", the caller-chained augmentation applies to that
builder, and the builder converts back to a Status as the return value. -/
def specReturnIfError (augment : StatusBuilder → StatusBuilder) (st : Status) :
    StmtOutcome :=
  if !st.ok then
    StmtOutcome.returned ((augment (StatusBuilder.mk st)).toStatus)
  else
    StmtOutcome.fellThrough

/-- Outcome of the spec-described extraction with an error expression of
result type `R`. -/
inductive SpecAssignOutcome (T R : Type) where
  | returned (r : R)
  | continued (v : T)
  deriving DecidableEq, Repr

/-- Modelled from the spec: the documented three-argument form
`REVERB_ASSIGN_OR_RETURN(lhs, rexpr, error_expression)` (header lines 97-135,
spec section 4.3), absent from src/: on failure the error expression is
evaluated with the placeholder bound to a StatusBuilder over the failure and
its result is returned; on success the payload goes to the destination. -/
def specAssignOrReturn {T R : Type} (rexpr : StatusOr T)
    (errorExpression : StatusBuilder → R) : SpecAssignOutcome T R :=
  match rexpr with
  | StatusOr.errorStatus s =>
      SpecAssignOutcome.returned (errorExpression (StatusBuilder.mk s))
  | StatusOr.okValue v => SpecAssignOutcome.continued v

/-- Outcome of a fatal assertion: the program continues, or aborts without
returning a value to the caller. -/
inductive CheckOutcome where
  | passed
  | aborted
  deriving DecidableEq, Repr

/-- Modelled from the spec: `CHECK_EQ` is the external fatal-assertion
reporter (spec section 6); it aborts execution when its two arguments differ
and otherwise lets execution continue unchanged. -/
def CHECK_EQ {α : Type} [DecidableEq α] (a b : α) : CheckOutcome :=
  if a = b then CheckOutcome.passed else CheckOutcome.aborted

/-- The macro `REVERB_CHECK_OK(val)` (line 145):
`CHECK_EQ(::absl::OkStatus(), (val))`. -/
def REVERB_CHECK_OK (val : Status) : CheckOutcome :=
  CHECK_EQ Status.okStatus val

/-! Helper lemmas about the C-level condition plumbing. -/

theorem cBool_cInt (b : Bool) : cBool (cInt b) = b := by
  cases b <;> decide

theorem predict_false_builtin_id (y : Int) :
    REVERB_PREDICT_FALSE_builtin y = y := rfl

/-- Unfolding of `REVERB_RETURN_IF_ERROR` by the ok-ness of the evaluated
status. -/
theorem return_if_error_eq {σ : Type} (expr : σ → Status × σ) (s0 : σ) :
    REVERB_RETURN_IF_ERROR expr s0 =
      if (expr s0).1.ok then
        (StmtOutcome.fellThrough, (expr s0).2, [Event.evalExpr])
      else
        (StmtOutcome.returned (expr s0).1, (expr s0).2, [Event.evalExpr]) := by
  unfold REVERB_RETURN_IF_ERROR REVERB_RETURN_IF_ERROR_expansion
  cases h : (expr s0).1.ok <;>
    simp [h, predict_false_builtin_id, cBool_cInt]

/-- Unfolding of `REVERB_ASSIGN_OR_RETURN_IMPL` by the shape of the evaluated
`StatusOr`. -/
theorem assign_or_return_impl_eq {σ T : Type} (rexpr : σ → StatusOr T × σ)
    (s0 : σ) :
    REVERB_ASSIGN_OR_RETURN_IMPL rexpr s0 =
      match (rexpr s0).1 with
      | StatusOr.okValue v =>
          (AssignOutcome.continued v, (rexpr s0).2,
            [Event.evalExpr, Event.valueAccess, Event.assignDest])
      | StatusOr.errorStatus st =>
          (AssignOutcome.returned st, (rexpr s0).2,
            [Event.evalExpr, Event.statusAccess]) := by
  unfold REVERB_ASSIGN_OR_RETURN_IMPL REVERB_ASSIGN_OR_RETURN_IMPL_expansion
  cases h : (rexpr s0).1 <;>
    simp [h, predict_false_builtin_id, cBool_cInt, StatusOr.ok,
      StatusOr.status, StatusOr.ValueOrDie]

/-! Claim theorems. -/

/-- C1: evidence at the failing input.  On the failure NOT_FOUND "x",
`REVERB_RETURN_IF_ERROR` as written returns the raw `_status` from inside a
`do/while` statement — no `StatusBuilder` is constructed — whereas the
builder-returning behavior described by its own doc comment (modelled by
`specReturnIfError`) with the chained augmentation "while loading x" returns
the augmented status; the two return values differ. -/
theorem return_if_error_raw_status_no_builder :
    REVERB_RETURN_IF_ERROR
        (fun (u : Unit) => (Status.error ErrorCode.notFound "x", u)) () =
      (StmtOutcome.returned (Status.error ErrorCode.notFound "x"), (),
        [Event.evalExpr]) ∧
    Event.mkBuilder ∉ (REVERB_RETURN_IF_ERROR
        (fun (u : Unit) => (Status.error ErrorCode.notFound "x", u)) ()).2.2 ∧
    specReturnIfError (fun b => b.appendContext "while loading x")
        (Status.error ErrorCode.notFound "x") =
      StmtOutcome.returned (Status.error ErrorCode.notFound "x; while loading x") ∧
    StmtOutcome.returned (Status.error ErrorCode.notFound "x") ≠
      StmtOutcome.returned
        (Status.error ErrorCode.notFound "x; while loading x") := by
  refine ⟨rfl, by decide, rfl, by decide⟩

/-- C2: evidence at the failing input.  `REVERB_ASSIGN_OR_RETURN_IMPL` takes
exactly the three parameters `(statusor, lhs, rexpr)` and on the failure
NOT_FOUND "x" returns `statusor.status()` unchanged, constructing no builder
and evaluating no error expression; the documented error-expression form
(modelled by `specAssignOrReturn`) would instead return the result of the
expression evaluated on the builder, which differs. -/
theorem assign_or_return_impl_lacks_error_expression :
    REVERB_ASSIGN_OR_RETURN_IMPL
        (fun (u : Unit) =>
          ((StatusOr.errorStatus (Status.error ErrorCode.notFound "x") :
            StatusOr Nat), u)) () =
      (AssignOutcome.returned (Status.error ErrorCode.notFound "x"), (),
        [Event.evalExpr, Event.statusAccess]) ∧
    Event.mkBuilder ∉ (REVERB_ASSIGN_OR_RETURN_IMPL
        (fun (u : Unit) =>
          ((StatusOr.errorStatus (Status.error ErrorCode.notFound "x") :
            StatusOr Nat), u)) ()).2.2 ∧
    specAssignOrReturn
        (StatusOr.errorStatus (Status.error ErrorCode.notFound "x") :
          StatusOr Nat)
        (fun b => (b.appendContext "while processing query").toStatus) =
      SpecAssignOutcome.returned
        (Status.error ErrorCode.notFound "x; while processing query") ∧
    Status.error ErrorCode.notFound "x" ≠
      Status.error ErrorCode.notFound "x; while processing query" := by
  refine ⟨rfl, by decide, rfl, by decide⟩

/-- C3: feeding a failure to `REVERB_ASSIGN_OR_RETURN_IMPL` makes the
enclosing function return that failure, the destination is never assigned
(no assignment event occurs) and never read or written (any sentinel value
survives unchanged). -/
theorem assign_or_return_failure_destination_untouched {σ T : Type}
    (rexpr : σ → StatusOr T × σ) (s0 : σ) (st : Status)
    (h : (rexpr s0).1 = StatusOr.errorStatus st) :
    (REVERB_ASSIGN_OR_RETURN_IMPL rexpr s0).1 = AssignOutcome.returned st ∧
    Event.assignDest ∉ (REVERB_ASSIGN_OR_RETURN_IMPL rexpr s0).2.2 ∧
    ∀ d0 : T, destAfter d0 (REVERB_ASSIGN_OR_RETURN_IMPL rexpr s0).1 = d0 := by
  rw [assign_or_return_impl_eq, h]
  refine ⟨rfl, ?_, fun d0 => rfl⟩
  show Event.assignDest ∉ [Event.evalExpr, Event.statusAccess]
  decide

/-- Witness for C3 at the failure NOT_FOUND "x" with sentinel 7. -/
theorem assign_or_return_failure_destination_untouched_witness :
    (REVERB_ASSIGN_OR_RETURN_IMPL
        (fun (u : Unit) =>
          ((StatusOr.errorStatus (Status.error ErrorCode.notFound "x") :
            StatusOr Nat), u)) ()).1 =
      AssignOutcome.returned (Status.error ErrorCode.notFound "x") ∧
    destAfter 7 (REVERB_ASSIGN_OR_RETURN_IMPL
        (fun (u : Unit) =>
          ((StatusOr.errorStatus (Status.error ErrorCode.notFound "x") :
            StatusOr Nat), u)) ()).1 = 7 := by
  have h := assign_or_return_failure_destination_untouched
    (fun (u : Unit) =>
      ((StatusOr.errorStatus (Status.error ErrorCode.notFound "x") :
        StatusOr Nat), u)) () (Status.error ErrorCode.notFound "x") rfl
  exact ⟨h.1, h.2.2 7⟩

/-- C4: `REVERB_RETURN_IF_ERROR` evaluates its argument exactly once (the
post state is the state after one evaluation and the trace holds exactly one
evaluation event), constructs no builder and emits no log, falls through on
every success, and returns the failure on every failure. -/
theorem return_if_error_single_eval_success_falls_through {σ : Type}
    (expr : σ → Status × σ) (s0 : σ) :
    (REVERB_RETURN_IF_ERROR expr s0).2.1 = (expr s0).2 ∧
    (REVERB_RETURN_IF_ERROR expr s0).2.2 = [Event.evalExpr] ∧
    Event.mkBuilder ∉ (REVERB_RETURN_IF_ERROR expr s0).2.2 ∧
    Event.logEmit ∉ (REVERB_RETURN_IF_ERROR expr s0).2.2 ∧
    ((expr s0).1.ok = true →
      (REVERB_RETURN_IF_ERROR expr s0).1 = StmtOutcome.fellThrough) ∧
    ((expr s0).1.ok = false →
      (REVERB_RETURN_IF_ERROR expr s0).1 = StmtOutcome.returned (expr s0).1) := by
  rw [return_if_error_eq]
  cases h : (expr s0).1.ok <;> simp

/-- Witness for C4: a success falls through and a failure is returned, each
at a concrete expression advancing a counter state. -/
theorem return_if_error_single_eval_witness :
    (REVERB_RETURN_IF_ERROR (fun (n : Nat) => (Status.okStatus, n + 1)) 0).1 =
      StmtOutcome.fellThrough ∧
    (REVERB_RETURN_IF_ERROR
        (fun (n : Nat) => (Status.error ErrorCode.notFound "x", n + 1)) 0).1 =
      StmtOutcome.returned (Status.error ErrorCode.notFound "x") := by
  exact ⟨(return_if_error_single_eval_success_falls_through
            (fun (n : Nat) => (Status.okStatus, n + 1)) 0).2.2.2.2.1 rfl,
         (return_if_error_single_eval_success_falls_through
            (fun (n : Nat) => (Status.error ErrorCode.notFound "x", n + 1)) 0).2.2.2.2.2 rfl⟩

/-- C5: feeding a success to `REVERB_ASSIGN_OR_RETURN_IMPL` moves the payload
into the destination and execution continues to the next statement; in
particular extracting the successful payload 42 into a new binding `v`
followed by `return v + 1` makes the enclosing function return 43. -/
theorem assign_or_return_success_assigns_payload {σ T : Type}
    (rexpr : σ → StatusOr T × σ) (s0 : σ) (v : T)
    (h : (rexpr s0).1 = StatusOr.okValue v) :
    (REVERB_ASSIGN_OR_RETURN_IMPL rexpr s0).1 = AssignOutcome.continued v ∧
    (∀ d0 : T, destAfter d0 (REVERB_ASSIGN_OR_RETURN_IMPL rexpr s0).1 = v) ∧
    extractThenAddOne (StatusOr.okValue 42) = some (StatusOr.okValue 43) := by
  rw [assign_or_return_impl_eq, h]
  exact ⟨rfl, fun d0 => rfl, rfl⟩

/-- Witness for C5 at the success payload 42 with sentinel 0. -/
theorem assign_or_return_success_assigns_payload_witness :
    (REVERB_ASSIGN_OR_RETURN_IMPL
        (fun (u : Unit) => ((StatusOr.okValue 42 : StatusOr Nat), u)) ()).1 =
      AssignOutcome.continued 42 ∧
    destAfter 0 (REVERB_ASSIGN_OR_RETURN_IMPL
        (fun (u : Unit) => ((StatusOr.okValue 42 : StatusOr Nat), u)) ()).1 = 42 ∧
    extractThenAddOne (StatusOr.okValue 42) = some (StatusOr.okValue 43) := by
  have h := assign_or_return_success_assigns_payload
    (fun (u : Unit) => ((StatusOr.okValue 42 : StatusOr Nat), u)) () 42 rfl
  exact ⟨h.1, h.2.1 0, h.2.2⟩

/-- C6: `REVERB_ASSIGN_OR_RETURN_IMPL` reaches the payload accessor
`ValueOrDie` exactly once on every success, never on a failure (the failure
branch returns before the move), and the guarded access never aborts. -/
theorem assign_or_return_moves_payload_once {σ T : Type}
    (rexpr : σ → StatusOr T × σ) (s0 : σ) :
    ((rexpr s0).1.ok = true →
      ((REVERB_ASSIGN_OR_RETURN_IMPL rexpr s0).2.2).count Event.valueAccess = 1) ∧
    ((rexpr s0).1.ok = false →
      Event.valueAccess ∉ (REVERB_ASSIGN_OR_RETURN_IMPL rexpr s0).2.2 ∧
      (REVERB_ASSIGN_OR_RETURN_IMPL rexpr s0).1 =
        AssignOutcome.returned (rexpr s0).1.status) ∧
    (REVERB_ASSIGN_OR_RETURN_IMPL rexpr s0).1 ≠ AssignOutcome.died := by
  rw [assign_or_return_impl_eq]
  cases h : (rexpr s0).1
  · simp [h, StatusOr.ok]
  · simp [h, StatusOr.ok, StatusOr.status]

/-- Witness for C6: one payload access on a concrete success, none on a
concrete failure. -/
theorem assign_or_return_moves_payload_once_witness :
    ((REVERB_ASSIGN_OR_RETURN_IMPL
        (fun (u : Unit) => ((StatusOr.okValue 42 : StatusOr Nat), u)) ()).2.2).count
      Event.valueAccess = 1 ∧
    Event.valueAccess ∉ (REVERB_ASSIGN_OR_RETURN_IMPL
        (fun (u : Unit) =>
          ((StatusOr.errorStatus (Status.error ErrorCode.notFound "x") :
            StatusOr Nat), u)) ()).2.2 := by
  exact ⟨(assign_or_return_moves_payload_once
            (fun (u : Unit) => ((StatusOr.okValue 42 : StatusOr Nat), u)) ()).1 rfl,
         ((assign_or_return_moves_payload_once
            (fun (u : Unit) =>
              ((StatusOr.errorStatus (Status.error ErrorCode.notFound "x") :
                StatusOr Nat), u)) ()).2.1 rfl).1⟩

/-- C7: neither propagation macro swallows a failure: on every failure each
macro makes the enclosing function return (the short-circuit macro returns
the failure itself, the extraction macro returns the held status), the
fallible expression is evaluated exactly once (the post state is the
one-evaluation state, so there is no implicit retry), and no substitute value
is produced in place of the failure. -/
theorem propagation_never_swallows_failure {σ T : Type}
    (expr : σ → Status × σ) (rexpr : σ → StatusOr T × σ) (s0 : σ) (st : Status) :
    ((expr s0).1 = st → st.ok = false →
      (REVERB_RETURN_IF_ERROR expr s0).1 = StmtOutcome.returned st ∧
      (REVERB_RETURN_IF_ERROR expr s0).2.1 = (expr s0).2) ∧
    ((rexpr s0).1 = StatusOr.errorStatus st →
      (REVERB_ASSIGN_OR_RETURN_IMPL rexpr s0).1 = AssignOutcome.returned st ∧
      (REVERB_ASSIGN_OR_RETURN_IMPL rexpr s0).2.1 = (rexpr s0).2) := by
  constructor
  · intro he hok
    rw [return_if_error_eq, he, hok]
    exact ⟨rfl, rfl⟩
  · intro hr
    rw [assign_or_return_impl_eq, hr]
    exact ⟨rfl, rfl⟩

/-- Witness for C7 at the failure NOT_FOUND "x" fed to both macros. -/
theorem propagation_never_swallows_failure_witness :
    ((REVERB_RETURN_IF_ERROR
        (fun (n : Nat) => (Status.error ErrorCode.notFound "x", n + 1)) 0).1 =
      StmtOutcome.returned (Status.error ErrorCode.notFound "x") ∧
      (REVERB_RETURN_IF_ERROR
        (fun (n : Nat) => (Status.error ErrorCode.notFound "x", n + 1)) 0).2.1 = 1) ∧
    (REVERB_ASSIGN_OR_RETURN_IMPL
        (fun (n : Nat) =>
          ((StatusOr.errorStatus (Status.error ErrorCode.notFound "x") :
            StatusOr Nat), n + 1)) 0).1 =
      AssignOutcome.returned (Status.error ErrorCode.notFound "x") := by
  have h := propagation_never_swallows_failure
    (fun (n : Nat) => (Status.error ErrorCode.notFound "x", n + 1))
    (fun (n : Nat) =>
      ((StatusOr.errorStatus (Status.error ErrorCode.notFound "x") :
        StatusOr Nat), n + 1)) 0 (Status.error ErrorCode.notFound "x")
  exact ⟨h.1 rfl rfl, (h.2 rfl).1⟩

/-- C8: the branch-prediction hint carries no semantic contract:
`REVERB_PREDICT_FALSE` returns its argument unchanged under both expansions;
`REVERB_PREDICT_TRUE` equals `!!x` exactly under the builtin expansion,
agrees with `!!x` as a condition under the fallback expansion, and equals it
exactly on boolean (0/1) arguments; and each propagation macro body is
identical under either expansion of the hint. -/
theorem predict_hints_carry_no_semantics :
    (∀ y : Int, REVERB_PREDICT_FALSE_builtin y = y ∧
      REVERB_PREDICT_FALSE_fallback y = y) ∧
    (∀ y : Int, REVERB_PREDICT_TRUE_builtin y = cNotNot y ∧
      cBool (REVERB_PREDICT_TRUE_fallback y) = cBool (cNotNot y)) ∧
    (∀ b : Bool, REVERB_PREDICT_TRUE_fallback (cInt b) = cNotNot (cInt b)) ∧
    (∀ (σ : Type) (expr : σ → Status × σ) (s0 : σ),
      REVERB_RETURN_IF_ERROR_expansion REVERB_PREDICT_FALSE_builtin expr s0 =
        REVERB_RETURN_IF_ERROR_expansion REVERB_PREDICT_FALSE_fallback expr s0) ∧
    (∀ (σ T : Type) (rexpr : σ → StatusOr T × σ) (s0 : σ),
      REVERB_ASSIGN_OR_RETURN_IMPL_expansion REVERB_PREDICT_FALSE_builtin rexpr s0 =
        REVERB_ASSIGN_OR_RETURN_IMPL_expansion REVERB_PREDICT_FALSE_fallback rexpr s0) := by
  refine ⟨fun y => ⟨rfl, rfl⟩, fun y => ⟨rfl, ?_⟩, fun b => ?_,
    fun σ expr s0 => rfl, fun σ T rexpr s0 => rfl⟩
  · show cBool y = cBool (cNotNot y)
    rw [cNotNot, cBool_cInt]
  · cases b <;> rfl

/-- C9: on every failure both macros return the failure exactly as the
fallible expression produced it — the full result (outcome, post state,
trace) shows the identical status returned, no builder constructed, no log
emitted, and the message unmodified. -/
theorem macros_return_failure_identity {σ T : Type}
    (expr : σ → Status × σ) (rexpr : σ → StatusOr T × σ) (s0 : σ) :
    ((expr s0).1.ok = false →
      REVERB_RETURN_IF_ERROR expr s0 =
        (StmtOutcome.returned (expr s0).1, (expr s0).2, [Event.evalExpr])) ∧
    (∀ st : Status, (rexpr s0).1 = StatusOr.errorStatus st →
      REVERB_ASSIGN_OR_RETURN_IMPL rexpr s0 =
        (AssignOutcome.returned st, (rexpr s0).2,
          [Event.evalExpr, Event.statusAccess])) := by
  constructor
  · intro hok
    rw [return_if_error_eq, hok]
    simp
  · intro st hr
    rw [assign_or_return_impl_eq, hr]

/-- Witness for C9 at the failure INVALID_ARGUMENT "bad" fed to both
macros. -/
theorem macros_return_failure_identity_witness :
    REVERB_RETURN_IF_ERROR
        (fun (n : Nat) => (Status.error ErrorCode.invalidArgument "bad", n + 1)) 0 =
      (StmtOutcome.returned (Status.error ErrorCode.invalidArgument "bad"), 1,
        [Event.evalExpr]) ∧
    REVERB_ASSIGN_OR_RETURN_IMPL
        (fun (n : Nat) =>
          ((StatusOr.errorStatus (Status.error ErrorCode.invalidArgument "bad") :
            StatusOr Nat), n + 1)) 0 =
      (AssignOutcome.returned (Status.error ErrorCode.invalidArgument "bad"), 1,
        [Event.evalExpr, Event.statusAccess]) := by
  have h := macros_return_failure_identity
    (fun (n : Nat) => (Status.error ErrorCode.invalidArgument "bad", n + 1))
    (fun (n : Nat) =>
      ((StatusOr.errorStatus (Status.error ErrorCode.invalidArgument "bad") :
        StatusOr Nat), n + 1)) 0
  exact ⟨h.1 rfl, h.2 (Status.error ErrorCode.invalidArgument "bad") rfl⟩

/-- C10: `REVERB_CHECK_OK` is a fatal assertion that passes exactly when its
argument equals `absl::OkStatus()`: every ok status lets execution continue
and every non-ok status aborts instead of returning a value. -/
theorem check_ok_fatal_assertion (val : Status) :
    (REVERB_CHECK_OK val = CheckOutcome.passed ↔ val = Status.okStatus) ∧
    (val.ok = true → REVERB_CHECK_OK val = CheckOutcome.passed) ∧
    (val.ok = false → REVERB_CHECK_OK val = CheckOutcome.aborted) := by
  cases val <;> simp [REVERB_CHECK_OK, CHECK_EQ, Status.ok]

/-- Witness for C10: `OkStatus` passes, a NOT_FOUND failure aborts. -/
theorem check_ok_fatal_assertion_witness :
    REVERB_CHECK_OK Status.okStatus = CheckOutcome.passed ∧
    REVERB_CHECK_OK (Status.error ErrorCode.notFound "x") = CheckOutcome.aborted := by
  exact ⟨(check_ok_fatal_assertion Status.okStatus).2.1 rfl,
         (check_ok_fatal_assertion (Status.error ErrorCode.notFound "x")).2.2 rfl⟩
